import Mathlib

/-!
Verification development for the batch driver
`02_generate_predicted_sedimentation_grids.py` of the
predicting-sediment-thickness repository.

The script is a parameter sweep: for each paleo-time in
`range(min_time, max_time + 1, time_step)` it builds one command line for an
external predictor program (one "mode" for sedimentation rate, one for
sediment thickness), creates output directories guarded by existence checks,
and dispatches the commands either sequentially or over a multiprocessing
pool whose size is resolved from the `use_all_cpus` configuration value.

Modelling choices, each noted at the definition it concerns:
* Python integers are `Int`, Python lists are `List`.
* The numeric model parameters (means, variances, maxima, polynomial
  coefficients, scale factor) flow into the command line only through
  Python's `str()`; they are therefore carried as their exact decimal
  string representations (the `repr` of the float literals written in the
  source, which round-trips for every literal appearing there).
* The grid spacings (`0.1` in the source) are exact multiples of one tenth
  and are only ever rendered with `str()` or a `.1f` format, which agree on
  such values; they are carried as a count of tenths (`Nat`).
* File-system effects are modelled by explicit state passing: the set of
  existing directories is a list of path strings, and `os.mkdir` /
  `os.path.exists` act on it.
* The `try/except KeyboardInterrupt/finally` block around the pool is
  modelled by a small combinator over an explicit exception outcome.
-/

/-- Python `format(t, ".0f")` (for `prec = 0`) and `format(t, ".<prec>f")`
(for `prec > 0`) applied to an integer `t`: the decimal rendering of `t`
followed, when `prec > 0`, by a decimal point and `prec` zero digits. -/
def pyFormatIntF (prec : Nat) (t : Int) : String :=
  if prec = 0 then toString t
  else toString t ++ "." ++ String.mk (List.replicate prec '0')

/-- Python `format(x, ".1f")` for a non-negative value that is an exact
multiple of one tenth, represented by its number of tenths.  For such values
Python's `str()` produces the same text, so this also models the `str(...)`
applied to the grid spacing in the built command. -/
def pyFormatTenthsF1 (tenths : Nat) : String :=
  toString (tenths / 10) ++ "." ++ toString (tenths % 10)

/-- POSIX `os.path.join a b` for the joins performed by the script: every
second component is a non-empty relative name and every first component is
non-empty and does not end in a separator, so the join is plain
concatenation with a `/`. -/
def pyPathJoin (a b : String) : String :=
  a ++ "/" ++ b

/-- Python `range(start, stop, step)` for a positive `step` (the only case
the driver uses: `times = range(min_time, max_time + 1, time_step)`),
written with explicit fuel.  For `1 ≤ step` the fuel `(stop - start).toNat`
is at least the number of produced elements, so the guard `cur < stop`
alone decides termination, exactly as in Python. -/
def pyRangeGo (step stop : Int) : Int → Nat → List Int
  | _, 0 => []
  | cur, fuel + 1 => if cur < stop then cur :: pyRangeGo step stop (cur + step) fuel else []

/-- Python `range(start, stop, step)` for a positive `step`. -/
def pyRange (start stop step : Int) : List Int :=
  pyRangeGo step stop start (stop - start).toNat

/-- Modelled from the spec's words for the comparison in the time-range
claim: the terms of the arithmetic sequence `mn, mn + step, ...` that are
`≤ mx` (generation stops at the first term exceeding `mx`; for `1 ≤ step`
the fuel `(mx - mn + 1).toNat` is at least the number of such terms). -/
def arithmeticTermsLEGo (step mx : Int) : Int → Nat → List Int
  | _, 0 => []
  | cur, fuel + 1 => if cur ≤ mx then cur :: arithmeticTermsLEGo step mx (cur + step) fuel else []

/-- Modelled from the spec's words: the terms of the arithmetic sequence
`mn, mn + step, ...` that are `≤ mx`. -/
def arithmeticTermsLE (mn mx step : Int) : List Int :=
  arithmeticTermsLEGo step mx mn (mx - mn + 1).toNat

/-- The value of the `use_all_cpus` configuration constant: a Python bool
or a Python int (`isinstance(x, bool)` distinguishes the two, and is
checked first by the script since Python bools are also ints). -/
inductive UseAllCpus where
  | bool (b : Bool)
  | int (n : Int)
deriving DecidableEq

/-- Python truthiness of the `use_all_cpus` value, as tested by the
`if use_all_cpus:` line that chooses between the pool and the sequential
loop. -/
def pyTruthy : UseAllCpus → Bool
  | UseAllCpus.bool b => b
  | UseAllCpus.int n => n != 0

/-- The user-input configuration constants of the script (lines 39-84),
plus `sys.executable` (the path of the running interpreter, known only at
run time).  The age-grid filename format is a template with a single
`{:.0f}` slot, represented by the text before and after the slot. -/
structure Config where
  sys_executable : String
  use_all_cpus : UseAllCpus
  output_base_dir : String
  min_time : Int
  max_time : Int
  time_step : Int
  generate_sediment_thickness_grids : Bool
  generate_sedimentation_rate_grids : Bool
  distance_grid_spacing_tenths : Nat
  grid_spacing_tenths : Nat
  age_grid_filenames_format_pre : String
  age_grid_filenames_format_suf : String
deriving DecidableEq

/-- Output directory name (`sediment_output_sub_dir = 'sedimentation_output'`). -/
def sediment_output_sub_dir : String :=
  "sedimentation_output"

/-- The distance grid filename for one paleo-time:
`'{0}/distances_{1:.1f}d/mean_distance_{1:.1f}d_{{:.1f}}.nc'` with the base
output directory and the distance grid spacing substituted up front and the
time substituted (to one decimal place) per job. -/
def distance_grid_filename (cfg : Config) (time : Int) : String :=
  cfg.output_base_dir ++ "/distances_" ++ pyFormatTenthsF1 cfg.distance_grid_spacing_tenths
    ++ "d/mean_distance_" ++ pyFormatTenthsF1 cfg.distance_grid_spacing_tenths ++ "d_"
    ++ pyFormatIntF 1 time ++ ".nc"

/-- The age grid filename for one paleo-time: the configured template with
the time substituted with no decimal places (`{:.0f}`). -/
def age_grid_filename (cfg : Config) (time : Int) : String :=
  cfg.age_grid_filenames_format_pre ++ pyFormatIntF 0 time ++ cfg.age_grid_filenames_format_suf

/-- One work item of the sweep: the argument tuple handed to
`generate_predicted_sedimentation_grid` (lines 278-292 and 376-390).
Numeric parameters are carried as the strings `str()` renders them to,
since that is the only way the driver consumes them; `scale_sedimentation_rate`
is `none` exactly when the Python value is `None`. -/
structure PredictionJob where
  time : Int
  predict_sedimentation_script : String
  scale_sedimentation_rate : Option String
  mean_age : String
  mean_distance : String
  variance_age : String
  variance_distance : String
  max_age : String
  max_distance : String
  age_distance_polynomial_coefficients : List String
  output_file_basename_pfx : String
deriving DecidableEq

/-- The command line built by `generate_predicted_sedimentation_grid`
(lines 108-138; the source name is kept, the Python function's only other
action is to execute the built command).  `output_file_basename_pfx`
renders the source's `output_file_basename_prefix` argument. -/
def generate_predicted_sedimentation_grid (cfg : Config) (j : PredictionJob) : List String :=
  let command_line : List String :=
    [cfg.sys_executable,
     j.predict_sedimentation_script,
     "-d", distance_grid_filename cfg j.time,
     "-g", age_grid_filename cfg j.time,
     "-i", pyFormatTenthsF1 cfg.grid_spacing_tenths,
     "-w",
     "-m", j.mean_age, j.mean_distance,
     "-v", j.variance_age, j.variance_distance,
     "-x", j.max_age, j.max_distance,
     "-f"]
  let command_line := command_line ++ j.age_distance_polynomial_coefficients
  let command_line :=
    match j.scale_sedimentation_rate with
    | some s => command_line ++ ["-s", s]
    | none => command_line
  let out_pfx := j.output_file_basename_pfx ++ "_" ++ pyFormatIntF 1 j.time
  command_line ++ ["--", out_pfx]

/-- The output directory of the sedimentation-rate mode
(`os.path.join(output_base_dir, sediment_output_sub_dir, 'predicted_rate')`). -/
def rate_output_dir (cfg : Config) : String :=
  pyPathJoin (pyPathJoin cfg.output_base_dir sediment_output_sub_dir) "predicted_rate"

/-- The output directory of the sediment-thickness mode. -/
def thickness_output_dir (cfg : Config) : String :=
  pyPathJoin (pyPathJoin cfg.output_base_dir sediment_output_sub_dir) "predicted_thickness"

/-- `output_file_basename_prefix` of the rate mode (line 250):
`os.path.join(output_dir, 'sed_rate_{:.1f}d'.format(grid_spacing))`. -/
def rate_output_file_basename_pfx (cfg : Config) : String :=
  pyPathJoin (rate_output_dir cfg) ("sed_rate_" ++ pyFormatTenthsF1 cfg.grid_spacing_tenths ++ "d")

/-- `output_file_basename_prefix` of the thickness mode (line 349). -/
def thickness_output_file_basename_pfx (cfg : Config) : String :=
  pyPathJoin (thickness_output_dir cfg) ("sed_thick_" ++ pyFormatTenthsF1 cfg.grid_spacing_tenths ++ "d")

/-- The job for one paleo-time in the rate section (lines 233-292): the
per-mode constants are the literals of lines 236-250, rendered by `str()`. -/
def rate_prediction_job (cfg : Config) (time : Int) : PredictionJob :=
  { time := time
    predict_sedimentation_script := "predict_sedimentation_rate.py"
    scale_sedimentation_rate := some "10.0"
    mean_age := "61.17716597"
    mean_distance := "1835.10750592"
    variance_age := "1934.78513885"
    variance_distance := "1207587.8548734"
    max_age := "191.87276"
    max_distance := "3000.0"
    age_distance_polynomial_coefficients :=
      ["1.350082937086441", "-0.26385415", "-0.07516542", "0.39197707", "-0.15475392",
       "0.0", "-0.13196083", "0.02481208", "-0.0", "-0.47570021"]
    output_file_basename_pfx := rate_output_file_basename_pfx cfg }

/-- The job for one paleo-time in the thickness section (lines 333-390):
the per-mode constants are the literals of lines 336-349; the scale factor
is Python `None`. -/
def thickness_prediction_job (cfg : Config) (time : Int) : PredictionJob :=
  { time := time
    predict_sedimentation_script := "predict_sediment_thickness.py"
    scale_sedimentation_rate := none
    mean_age := "61.18406823"
    mean_distance := "1835.28118479"
    variance_age := "1934.6999014"
    variance_distance := "1207521.8995806"
    max_age := "191.87276"
    max_distance := "3000.0"
    age_distance_polynomial_coefficients :=
      ["5.441401190368497", "0.46893096", "-0.07320928", "-0.24077496", "-0.10840657",
       "0.00381672", "0.06831728", "0.01179914", "0.01158149", "-0.39880562"]
    output_file_basename_pfx := thickness_output_file_basename_pfx cfg }

/-- `times = range(min_time, max_time + 1, time_step)` (line 186). -/
def times (cfg : Config) : List Int :=
  pyRange cfg.min_time (cfg.max_time + 1) cfg.time_step

/-- The jobs of the rate section, one per time, in time order
(the generator expression of lines 278-292). -/
def rateJobs (cfg : Config) : List PredictionJob :=
  (times cfg).map (rate_prediction_job cfg)

/-- The jobs of the thickness section, one per time, in time order
(the generator expression of lines 376-390). -/
def thicknessJobs (cfg : Config) : List PredictionJob :=
  (times cfg).map (thickness_prediction_job cfg)

/-- All jobs produced by one run: the rate section runs first when enabled,
then the thickness section when enabled (lines 233 and 333). -/
def runJobs (cfg : Config) : List PredictionJob :=
  (if cfg.generate_sedimentation_rate_grids then rateJobs cfg else [])
    ++ (if cfg.generate_sediment_thickness_grids then thicknessJobs cfg else [])

/-- The configuration constants as written in the source (lines 39-84),
with the run-time interpreter path abstracted. -/
def sourceConfig (pyexe : String) : Config :=
  { sys_executable := pyexe
    use_all_cpus := UseAllCpus.int 4
    output_base_dir := "."
    min_time := 0
    max_time := 250
    time_step := 1
    generate_sediment_thickness_grids := true
    generate_sedimentation_rate_grids := true
    distance_grid_spacing_tenths := 1
    grid_spacing_tenths := 1
    age_grid_filenames_format_pre :=
      "/Users/nickywright/Data/Age/Muller2019-Young2019-Cao2020_Agegrids/Muller2019-Young2019-Cao2020_netCDF/Muller2019-Young2019-Cao2020_AgeGrid-"
    age_grid_filenames_format_suf := ".nc" }

/-- The end-to-end scenario configuration of the spec: `min_time = 0`,
`max_time = 2`, `time_step = 1`, only the thickness mode enabled. -/
def scenarioConfig (pyexe : String) : Config :=
  { sys_executable := pyexe
    use_all_cpus := UseAllCpus.int 4
    output_base_dir := "."
    min_time := 0
    max_time := 2
    time_step := 1
    generate_sediment_thickness_grids := true
    generate_sedimentation_rate_grids := false
    distance_grid_spacing_tenths := 1
    grid_spacing_tenths := 1
    age_grid_filenames_format_pre :=
      "/Users/nickywright/Data/Age/Muller2019-Young2019-Cao2020_Agegrids/Muller2019-Young2019-Cao2020_netCDF/Muller2019-Young2019-Cao2020_AgeGrid-"
    age_grid_filenames_format_suf := ".nc" }

/-- How one mode section runs its jobs: over a pool of `num_cpus` workers
(truthy `use_all_cpus`), sequentially on the calling thread (falsy
`use_all_cpus`), or not at all because resolving the worker count raised
`TypeError` before any job was dispatched. -/
inductive SectionRun where
  | parallelRun (num_cpus : Nat) (dispatched : List PredictionJob)
  | sequentialRun (dispatched : List PredictionJob)
  | typeError (msg : String)
deriving DecidableEq

/-- Worker-count resolution inside the truthy branch (lines 259-271):
a bool (necessarily `True` there) takes `multiprocessing.cpu_count()`,
falling back to 1 when detection raises `NotImplementedError` (modelled by
`cpu_count = none`); a positive int is taken as-is; anything else raises
`TypeError` with the message of line 271. -/
def resolve_num_cpus (cpu_count : Option Nat) (u : UseAllCpus) : Except String Nat :=
  match u with
  | UseAllCpus.bool _ =>
      match cpu_count with
      | some n => Except.ok n
      | none => Except.ok 1
  | UseAllCpus.int n =>
      if 0 < n then Except.ok n.toNat
      else Except.error ("use_all_cpus: " ++ toString n ++ " is neither a bool nor a positive integer")

/-- One mode section's control flow (lines 259-315): truthy `use_all_cpus`
resolves a worker count and dispatches all jobs to the pool (or raises
before dispatching any); falsy `use_all_cpus` runs all jobs in a sequential
loop. -/
def run_mode_section (cpu_count : Option Nat) (u : UseAllCpus) (jobs : List PredictionJob) : SectionRun :=
  if pyTruthy u then
    match resolve_num_cpus cpu_count u with
    | Except.ok n => SectionRun.parallelRun n jobs
    | Except.error m => SectionRun.typeError m
  else
    SectionRun.sequentialRun jobs

/-- The number of workers that actually execute jobs: the pool size in
parallel mode, one (the calling thread) in sequential mode, none when the
section raised before dispatch. -/
def effective_worker_count : SectionRun → Option Nat
  | SectionRun.parallelRun n _ => some n
  | SectionRun.sequentialRun _ => some 1
  | SectionRun.typeError _ => none

/-- The jobs a section actually dispatches. -/
def dispatched_jobs : SectionRun → List PredictionJob
  | SectionRun.parallelRun _ js => js
  | SectionRun.sequentialRun js => js
  | SectionRun.typeError _ => []

/-- A Python exception escaping `pool_map_async_result.get(999999)`. -/
inductive PyExc where
  | keyboardInterrupt : PyExc
  | other : String → PyExc
deriving DecidableEq

/-- The lifecycle state of the multiprocessing pool. -/
structure PoolState where
  closed : Bool
  joined : Bool
deriving DecidableEq

/-- `pool.close()`. -/
def pool_close (s : PoolState) : PoolState :=
  PoolState.mk true s.joined

/-- `pool.join()`. -/
def pool_join (s : PoolState) : PoolState :=
  PoolState.mk s.closed true

/-- Python semantics of `try: body except KeyboardInterrupt: pass finally:
finalizer`: the finalizer runs on every exit path; a `KeyboardInterrupt`
from the body is swallowed by the handler; any other exception is re-raised
after the finalizer. -/
def tryExceptKeyboardInterruptFinally (body : PoolState → PoolState × Option PyExc)
    (finalizer : PoolState → PoolState) (s : PoolState) : PoolState × Option PyExc :=
  match body s with
  | (s1, none) => (finalizer s1, none)
  | (s1, some PyExc.keyboardInterrupt) => (finalizer s1, none)
  | (s1, some (PyExc.other e)) => (finalizer s1, some (PyExc.other e))

/-- The parallel dispatch block (lines 273-304): inside `try`, the pool is
created and `map_async` results are collected with `get`; the parameter is
the outcome of that collection (`none` for normal completion).  The
`except KeyboardInterrupt: pass` handler and the `finally: pool.close();
pool.join()` clause wrap it exactly as in the source. -/
def pool_dispatch (get_outcome : Option PyExc) : PoolState × Option PyExc :=
  tryExceptKeyboardInterruptFinally
    (fun s => (s, get_outcome))
    (fun s => pool_join (pool_close s))
    (PoolState.mk false false)

/-- The worker-side wrapper (lines 151-155): it runs one job and swallows a
`KeyboardInterrupt` raised during the call, returning `None`.  The
parameter is the outcome of the wrapped call. -/
def generate_predicted_sedimentation_grid_parallel_pool_function
    (call_result : Except PyExc Unit) : Except PyExc Unit :=
  match call_result with
  | Except.error PyExc.keyboardInterrupt => Except.ok ()
  | r => r

/-- The directory part of the file system, modelled flat: the collection of
existing directory paths. -/
abbrev DirState := List String

/-- `os.path.exists`. -/
def os_path_exists (fs : DirState) (p : String) : Bool :=
  decide (p ∈ fs)

/-- `os.mkdir`: creates the directory, raising `FileExistsError` when the
path already exists. -/
def os_mkdir (fs : DirState) (p : String) : Except String DirState :=
  if p ∈ fs then Except.error "FileExistsError" else Except.ok (p :: fs)

/-- The guarded creation pattern used for every output directory
(lines 88-91, 252-255, 351-354): `if not os.path.exists(p): os.mkdir(p)`. -/
def makeDirIfMissing (fs : DirState) (p : String) : Except String DirState :=
  if os_path_exists fs p then Except.ok fs else os_mkdir fs p

/-- The directory setup a run performs: the base output directory
(lines 88-91), then the rate output directory when the rate section is
enabled (lines 252-255), then the thickness output directory when the
thickness section is enabled (lines 351-354). -/
def setup_output_dirs (cfg : Config) (fs : DirState) : Except String DirState :=
  Except.bind (makeDirIfMissing fs (pyPathJoin cfg.output_base_dir sediment_output_sub_dir))
    (fun fs1 =>
      Except.bind
        (if cfg.generate_sedimentation_rate_grids then makeDirIfMissing fs1 (rate_output_dir cfg)
         else Except.ok fs1)
        (fun fs2 =>
          if cfg.generate_sediment_thickness_grids then makeDirIfMissing fs2 (thickness_output_dir cfg)
          else Except.ok fs2))

/-- Field-wise agreement of two jobs on everything except the time and the
time-derived parts of the built command: the shared per-mode parameters. -/
def sameModeParams (j1 j2 : PredictionJob) : Prop :=
  j1.predict_sedimentation_script = j2.predict_sedimentation_script
    ∧ j1.scale_sedimentation_rate = j2.scale_sedimentation_rate
    ∧ j1.mean_age = j2.mean_age
    ∧ j1.mean_distance = j2.mean_distance
    ∧ j1.variance_age = j2.variance_age
    ∧ j1.variance_distance = j2.variance_distance
    ∧ j1.max_age = j2.max_age
    ∧ j1.max_distance = j2.max_distance
    ∧ j1.age_distance_polynomial_coefficients = j2.age_distance_polynomial_coefficients
    ∧ j1.output_file_basename_pfx = j2.output_file_basename_pfx

/-! Helper lemmas. -/

theorem pyRangeGo_eq_arithmeticTermsLEGo (step mx : Int) :
    ∀ (fuel : Nat) (cur : Int), pyRangeGo step (mx + 1) cur fuel = arithmeticTermsLEGo step mx cur fuel := by
  intro fuel
  induction fuel with
  | zero => intro cur; rfl
  | succ n ih =>
      intro cur
      simp only [pyRangeGo, arithmeticTermsLEGo]
      by_cases h : cur ≤ mx
      · rw [if_pos (by omega), if_pos h, ih]
      · rw [if_neg (by omega), if_neg h]

theorem pyRange_eq_arithmeticTermsLE (mn mx step : Int) :
    pyRange mn (mx + 1) step = arithmeticTermsLE mn mx step := by
  unfold pyRange arithmeticTermsLE
  rw [show mx + 1 - mn = mx - mn + 1 by ring]
  exact pyRangeGo_eq_arithmeticTermsLEGo step mx (mx - mn + 1).toNat mn

theorem le_of_mem_pyRangeGo (step stop : Int) (hs : 0 < step) :
    ∀ (fuel : Nat) (cur t : Int), t ∈ pyRangeGo step stop cur fuel → cur ≤ t := by
  intro fuel
  induction fuel with
  | zero => intro cur t ht; simp [pyRangeGo] at ht
  | succ n ih =>
      intro cur t ht
      simp only [pyRangeGo] at ht
      by_cases hc : cur < stop
      · rw [if_pos hc] at ht
        rcases List.mem_cons.mp ht with h1 | h2
        · omega
        · have := ih (cur + step) t h2
          omega
      · rw [if_neg hc] at ht
        simp at ht

theorem pyRangeGo_nodup (step stop : Int) (hs : 0 < step) :
    ∀ (fuel : Nat) (cur : Int), (pyRangeGo step stop cur fuel).Nodup := by
  intro fuel
  induction fuel with
  | zero => intro cur; simp [pyRangeGo]
  | succ n ih =>
      intro cur
      simp only [pyRangeGo]
      by_cases hc : cur < stop
      · rw [if_pos hc]
        refine List.nodup_cons.mpr ⟨fun hmem => ?_, ih (cur + step)⟩
        have := le_of_mem_pyRangeGo step stop hs n (cur + step) cur hmem
        omega
      · rw [if_neg hc]
        simp

theorem times_nodup (cfg : Config) (h : 0 < cfg.time_step) : (times cfg).Nodup :=
  pyRangeGo_nodup cfg.time_step (cfg.max_time + 1) h _ cfg.min_time

theorem pyFormatIntF_zero (t : Int) : pyFormatIntF 0 t = toString t := by
  unfold pyFormatIntF
  rw [if_pos rfl]

theorem pyFormatIntF_one (t : Int) : pyFormatIntF 1 t = toString t ++ ".0" := by
  unfold pyFormatIntF
  rw [if_neg (by decide), String.append_assoc]
  congr 1

theorem getLast?_append_pair (l : List String) (a b : String) : (l ++ [a, b]).getLast? = some b := by
  rw [show l ++ [a, b] = (l ++ [a]) ++ [b] by simp]
  simp

theorem except_bind_ok (a : DirState) (f : DirState → Except String DirState) :
    Except.bind (Except.ok a) f = f a := rfl

theorem makeDirIfMissing_spec (fs : DirState) (p : String) :
    ∃ fs2, makeDirIfMissing fs p = Except.ok fs2 ∧ fs ⊆ fs2 ∧ p ∈ fs2 := by
  by_cases h : p ∈ fs
  · refine ⟨fs, ?_, List.Subset.refl fs, h⟩
    simp [makeDirIfMissing, os_path_exists, h]
  · refine ⟨p :: fs, ?_, List.subset_cons_self p fs, List.mem_cons_self p fs⟩
    simp [makeDirIfMissing, os_path_exists, os_mkdir, h]

theorem makeDirIfMissing_mem (fs : DirState) (p : String) (h : p ∈ fs) :
    makeDirIfMissing fs p = Except.ok fs := by
  simp [makeDirIfMissing, os_path_exists, h]

theorem optional_makeDir_spec (b : Bool) (fs : DirState) (p : String) :
    ∃ fs2, (if b then makeDirIfMissing fs p else Except.ok fs) = Except.ok fs2
      ∧ fs ⊆ fs2 ∧ (b = true → p ∈ fs2) := by
  cases b
  · exact ⟨fs, rfl, List.Subset.refl fs, by simp⟩
  · obtain ⟨fs2, h1, h2, h3⟩ := makeDirIfMissing_spec fs p
    exact ⟨fs2, by simpa using h1, h2, fun _ => h3⟩

theorem optional_makeDir_mem (b : Bool) (fs : DirState) (p : String) (h : b = true → p ∈ fs) :
    (if b then makeDirIfMissing fs p else Except.ok fs) = Except.ok fs := by
  cases b
  · rfl
  · simpa using makeDirIfMissing_mem fs p (h rfl)

/-! Claim theorems. -/

/-- Claim C1, counterexample: with `use_all_cpus = 0` the section does not
raise at all — the zero value is falsy, so the script takes the sequential
branch and dispatches the jobs on a single effective worker, contradicting
the claim that a zero integer raises a ConfigurationError before dispatch. -/
theorem worker_count_zero_not_error :
    run_mode_section (some 4) (UseAllCpus.int 0) [] = SectionRun.sequentialRun []
      ∧ effective_worker_count (run_mode_section (some 4) (UseAllCpus.int 0) []) = some 1 := by
  constructor <;> rfl

/-- Claim C1 (amended): boolean `True` resolves to the detected core count
(1 when detection is unavailable); boolean `False` runs sequentially with 1
effective worker; a positive integer N resolves to N; a negative integer
raises `TypeError` before any job is dispatched; a zero integer is falsy
and behaves like `False` (sequential, 1 effective worker, no error). -/
theorem worker_count_resolution (d : Nat) (jobs : List PredictionJob) :
    run_mode_section (some d) (UseAllCpus.bool true) jobs = SectionRun.parallelRun d jobs
      ∧ run_mode_section none (UseAllCpus.bool true) jobs = SectionRun.parallelRun 1 jobs
      ∧ run_mode_section (some d) (UseAllCpus.bool false) jobs = SectionRun.sequentialRun jobs
      ∧ effective_worker_count (run_mode_section (some d) (UseAllCpus.bool false) jobs) = some 1
      ∧ (∀ n : Int, 0 < n →
          run_mode_section (some d) (UseAllCpus.int n) jobs = SectionRun.parallelRun n.toNat jobs)
      ∧ (∀ n : Int, n < 0 →
          run_mode_section (some d) (UseAllCpus.int n) jobs
              = SectionRun.typeError
                  ("use_all_cpus: " ++ toString n ++ " is neither a bool nor a positive integer")
            ∧ dispatched_jobs (run_mode_section (some d) (UseAllCpus.int n) jobs) = [])
      ∧ run_mode_section (some d) (UseAllCpus.int 0) jobs = SectionRun.sequentialRun jobs := by
  refine ⟨rfl, rfl, rfl, rfl, ?_, ?_, rfl⟩
  · intro n hn
    have hne : (n != 0) = true := by simp [bne_iff_ne]; omega
    simp [run_mode_section, pyTruthy, resolve_num_cpus, hne, hn]
  · intro n hn
    have hne : (n != 0) = true := by simp [bne_iff_ne]; omega
    have hnp : ¬ (0 < n) := by omega
    refine ⟨?_, ?_⟩
    · simp [run_mode_section, pyTruthy, resolve_num_cpus, hne, hnp]
    · simp [run_mode_section, pyTruthy, resolve_num_cpus, hne, hnp, dispatched_jobs]

/-- Claim C1 witness: concrete instances of the amended resolution. -/
theorem worker_count_resolution_witness :
    run_mode_section (some 8) (UseAllCpus.int 3) [] = SectionRun.parallelRun 3 []
      ∧ run_mode_section (some 8) (UseAllCpus.int (-2)) []
          = SectionRun.typeError
              ("use_all_cpus: " ++ toString (-2 : Int) ++ " is neither a bool nor a positive integer") :=
  ⟨(worker_count_resolution 8 []).2.2.2.2.1 3 (by decide),
   ((worker_count_resolution 8 []).2.2.2.2.2.1 (-2) (by decide)).1⟩

/-- Claim C2: for every configured time range with a positive step, each
mode produces as many jobs as there are terms of the arithmetic sequence
`min_time, min_time + time_step, ...` that are at most `max_time`, and the
job time values are exactly those terms, in order. -/
theorem jobs_cover_time_range (cfg : Config) (h : 0 < cfg.time_step) :
    (rateJobs cfg).length = (arithmeticTermsLE cfg.min_time cfg.max_time cfg.time_step).length
      ∧ (rateJobs cfg).map PredictionJob.time
          = arithmeticTermsLE cfg.min_time cfg.max_time cfg.time_step
      ∧ (thicknessJobs cfg).length
          = (arithmeticTermsLE cfg.min_time cfg.max_time cfg.time_step).length
      ∧ (thicknessJobs cfg).map PredictionJob.time
          = arithmeticTermsLE cfg.min_time cfg.max_time cfg.time_step := by
  have key : times cfg = arithmeticTermsLE cfg.min_time cfg.max_time cfg.time_step :=
    pyRange_eq_arithmeticTermsLE cfg.min_time cfg.max_time cfg.time_step
  refine ⟨?_, ?_, ?_, ?_⟩
  · rw [rateJobs, List.length_map, key]
  · rw [rateJobs, List.map_map, show PredictionJob.time ∘ rate_prediction_job cfg = id from rfl,
      List.map_id, key]
  · rw [thicknessJobs, List.length_map, key]
  · rw [thicknessJobs, List.map_map,
      show PredictionJob.time ∘ thickness_prediction_job cfg = id from rfl, List.map_id, key]

/-- Claim C2 witness: the scenario range 0..2 with step 1. -/
theorem jobs_cover_time_range_witness :
    0 < (scenarioConfig "python").time_step
      ∧ (rateJobs (scenarioConfig "python")).map PredictionJob.time
          = arithmeticTermsLE (scenarioConfig "python").min_time (scenarioConfig "python").max_time
              (scenarioConfig "python").time_step :=
  ⟨by decide, (jobs_cover_time_range (scenarioConfig "python") (by decide)).2.1⟩

/-- Claim C3: exactly one job is produced per time value of the configured
range, and within one mode all jobs agree on every parameter other than the
time value and the time-derived file paths of the built command (script,
scale, means, variances, maxima, coefficients, output-prefix). -/
theorem one_job_per_time_constant_params (cfg : Config) (h : 0 < cfg.time_step) :
    (∀ t ∈ times cfg, ((rateJobs cfg).filter (fun j => j.time == t)).length = 1)
      ∧ (∀ t ∈ times cfg, ((thicknessJobs cfg).filter (fun j => j.time == t)).length = 1)
      ∧ (∀ j1 ∈ rateJobs cfg, ∀ j2 ∈ rateJobs cfg, sameModeParams j1 j2)
      ∧ (∀ j1 ∈ thicknessJobs cfg, ∀ j2 ∈ thicknessJobs cfg, sameModeParams j1 j2) := by
  have hno : (times cfg).Nodup := times_nodup cfg h
  have key : ∀ (f : Int → PredictionJob), (∀ x, (f x).time = x) →
      ∀ t ∈ times cfg, (((times cfg).map f).filter (fun j => j.time == t)).length = 1 := by
    intro f hf t ht
    rw [List.filter_map]
    have hpred : ((fun j => j.time == t) ∘ f) = fun x => x == t := by
      funext x
      simp [hf]
    rw [hpred, List.length_map, ← List.countP_eq_length_filter]
    exact List.count_eq_one_of_mem hno ht
  refine ⟨key (rate_prediction_job cfg) (fun x => rfl),
          key (thickness_prediction_job cfg) (fun x => rfl), ?_, ?_⟩
  · intro j1 h1 j2 h2
    obtain ⟨t1, _, rfl⟩ := List.mem_map.mp h1
    obtain ⟨t2, _, rfl⟩ := List.mem_map.mp h2
    exact ⟨rfl, rfl, rfl, rfl, rfl, rfl, rfl, rfl, rfl, rfl⟩
  · intro j1 h1 j2 h2
    obtain ⟨t1, _, rfl⟩ := List.mem_map.mp h1
    obtain ⟨t2, _, rfl⟩ := List.mem_map.mp h2
    exact ⟨rfl, rfl, rfl, rfl, rfl, rfl, rfl, rfl, rfl, rfl⟩

/-- Claim C3 witness: in the scenario range, time 1 has exactly one
thickness job. -/
theorem one_job_per_time_constant_params_witness :
    0 < (scenarioConfig "python").time_step
      ∧ 1 ∈ times (scenarioConfig "python")
      ∧ ((thicknessJobs (scenarioConfig "python")).filter (fun j => j.time == 1)).length = 1 :=
  ⟨by decide, by decide,
   (one_job_per_time_constant_params (scenarioConfig "python") (by decide)).2.1 1 (by decide)⟩

/-- Claim C9: on every exit path of the parallel dispatch block — normal
completion, keyboard interrupt, or any other exception — the pool is closed
and joined; a keyboard interrupt is suppressed (not re-raised) at the top
level while any other exception propagates after cleanup; the worker-side
wrapper also swallows a keyboard interrupt. -/
theorem pool_cleanup_on_every_exit_path (oc : Option PyExc) :
    ((pool_dispatch oc).1.closed = true ∧ (pool_dispatch oc).1.joined = true)
      ∧ (oc = some PyExc.keyboardInterrupt → (pool_dispatch oc).2 = none)
      ∧ (oc = none → (pool_dispatch oc).2 = none)
      ∧ (∀ e, oc = some (PyExc.other e) → (pool_dispatch oc).2 = some (PyExc.other e))
      ∧ generate_predicted_sedimentation_grid_parallel_pool_function
          (Except.error PyExc.keyboardInterrupt) = Except.ok () := by
  rcases oc with _ | exc
  · exact ⟨⟨rfl, rfl⟩, by simp, fun _ => rfl, by simp, rfl⟩
  · rcases exc with _ | e
    · exact ⟨⟨rfl, rfl⟩, fun _ => rfl, by simp, by simp, rfl⟩
    · refine ⟨⟨rfl, rfl⟩, by simp, by simp, ?_, rfl⟩
      intro e2 he
      cases he
      rfl

/-- Claim C9 witness: the keyboard-interrupt path closes and joins the pool
and suppresses the interrupt. -/
theorem pool_cleanup_on_every_exit_path_witness :
    ((pool_dispatch (some PyExc.keyboardInterrupt)).1.closed = true
        ∧ (pool_dispatch (some PyExc.keyboardInterrupt)).1.joined = true)
      ∧ (pool_dispatch (some PyExc.keyboardInterrupt)).2 = none :=
  ⟨(pool_cleanup_on_every_exit_path (some PyExc.keyboardInterrupt)).1,
   (pool_cleanup_on_every_exit_path (some PyExc.keyboardInterrupt)).2.1 rfl⟩

/-- Claim C8: directory setup never fails on any starting state: every
creation is guarded by an existence check, a missing directory is created
rather than treated as an error, existing directories are kept, and running
the setup again on the resulting state returns it unchanged — directory
setup is idempotent across runs. -/
theorem output_dir_setup_idempotent (cfg : Config) (fs : DirState) :
    ∃ fs2, setup_output_dirs cfg fs = Except.ok fs2 ∧ fs ⊆ fs2
      ∧ setup_output_dirs cfg fs2 = Except.ok fs2 := by
  obtain ⟨fsA, hA, hsA, hmA⟩ :=
    makeDirIfMissing_spec fs (pyPathJoin cfg.output_base_dir sediment_output_sub_dir)
  obtain ⟨fsB, hB, hsB, hmB⟩ :=
    optional_makeDir_spec cfg.generate_sedimentation_rate_grids fsA (rate_output_dir cfg)
  obtain ⟨fsC, hC, hsC, hmC⟩ :=
    optional_makeDir_spec cfg.generate_sediment_thickness_grids fsB (thickness_output_dir cfg)
  refine ⟨fsC, ?_, ?_, ?_⟩
  · simp only [setup_output_dirs, hA, except_bind_ok, hB, hC]
  · exact List.Subset.trans hsA (List.Subset.trans hsB hsC)
  · simp only [setup_output_dirs, makeDirIfMissing_mem fsC _ (hsC (hsB hmA)), except_bind_ok,
      optional_makeDir_mem _ _ _ (fun hb => hsC (hmB hb)), optional_makeDir_mem _ _ _ hmC]

/-- Claim C5: the command builder returns the ordered argument list: after
the interpreter and script (the two launcher elements), the
time-substituted distance-grid path, the time-substituted age-grid path,
the output grid spacing, the weighted-mode flag, the mean age/distance
pair, the variance age/distance pair, the max age and max distance, the
flattened polynomial coefficients, the optional scale factor, and finally
the time-suffixed output filename prefix. -/
theorem command_argument_order (cfg : Config) (j : PredictionJob) :
    generate_predicted_sedimentation_grid cfg j
      = [cfg.sys_executable, j.predict_sedimentation_script]
        ++ ["-d", distance_grid_filename cfg j.time]
        ++ ["-g", age_grid_filename cfg j.time]
        ++ ["-i", pyFormatTenthsF1 cfg.grid_spacing_tenths]
        ++ ["-w"]
        ++ ["-m", j.mean_age, j.mean_distance]
        ++ ["-v", j.variance_age, j.variance_distance]
        ++ ["-x", j.max_age, j.max_distance]
        ++ ["-f"]
        ++ j.age_distance_polynomial_coefficients
        ++ (match j.scale_sedimentation_rate with
            | some s => ["-s", s]
            | none => ([] : List String))
        ++ ["--", j.output_file_basename_pfx ++ "_" ++ pyFormatIntF 1 j.time] := by
  rcases hs : j.scale_sedimentation_rate with _ | s <;>
    simp [generate_predicted_sedimentation_grid, hs]

/-- Claim C10: the built command line begins with exactly two elements
outside the external CLI contract: the path of the running Python
interpreter (`sys.executable`, modelled by the `sys_executable`
configuration field) followed by the predictor script name, so the external
predictor is always launched through the same interpreter as the driver. -/
theorem command_head_interpreter_script (cfg : Config) (j : PredictionJob) :
    (generate_predicted_sedimentation_grid cfg j).take 2
        = [cfg.sys_executable, j.predict_sedimentation_script]
      ∧ (generate_predicted_sedimentation_grid cfg j)[0]? = some cfg.sys_executable
      ∧ (generate_predicted_sedimentation_grid cfg j)[1]? = some j.predict_sedimentation_script := by
  rcases hs : j.scale_sedimentation_rate with _ | s <;>
    refine ⟨?_, ?_, ?_⟩ <;> simp [generate_predicted_sedimentation_grid, hs]

/-- Claim C6: the built command substitutes the paleo-time with no decimal
places into the age-grid filename template, and with exactly one decimal
place into the distance-grid filename (whose directory component carries
the distance grid spacing to one decimal place); the output filename prefix
passed to the external program ends with the time to exactly one decimal
place. -/
theorem grid_path_time_formats (cfg : Config) (j : PredictionJob) :
    (generate_predicted_sedimentation_grid cfg j)[3]? = some (distance_grid_filename cfg j.time)
      ∧ (generate_predicted_sedimentation_grid cfg j)[5]? = some (age_grid_filename cfg j.time)
      ∧ age_grid_filename cfg j.time
          = cfg.age_grid_filenames_format_pre ++ toString j.time ++ cfg.age_grid_filenames_format_suf
      ∧ distance_grid_filename cfg j.time
          = cfg.output_base_dir ++ "/distances_"
              ++ pyFormatTenthsF1 cfg.distance_grid_spacing_tenths
              ++ "d/mean_distance_" ++ pyFormatTenthsF1 cfg.distance_grid_spacing_tenths
              ++ "d_" ++ (toString j.time ++ ".0") ++ ".nc"
      ∧ (generate_predicted_sedimentation_grid cfg j).getLast?
          = some (j.output_file_basename_pfx ++ "_" ++ (toString j.time ++ ".0")) := by
  refine ⟨?_, ?_, ?_, ?_, ?_⟩
  · rcases hs : j.scale_sedimentation_rate with _ | s <;>
      simp [generate_predicted_sedimentation_grid, hs]
  · rcases hs : j.scale_sedimentation_rate with _ | s <;>
      simp [generate_predicted_sedimentation_grid, hs]
  · rw [age_grid_filename, pyFormatIntF_zero]
  · rw [distance_grid_filename, pyFormatIntF_one]
  · rw [show generate_predicted_sedimentation_grid cfg j
        = (match j.scale_sedimentation_rate with
           | some s =>
             ([cfg.sys_executable, j.predict_sedimentation_script,
               "-d", distance_grid_filename cfg j.time,
               "-g", age_grid_filename cfg j.time,
               "-i", pyFormatTenthsF1 cfg.grid_spacing_tenths,
               "-w", "-m", j.mean_age, j.mean_distance,
               "-v", j.variance_age, j.variance_distance,
               "-x", j.max_age, j.max_distance,
               "-f"] ++ j.age_distance_polynomial_coefficients) ++ ["-s", s]
           | none =>
             [cfg.sys_executable, j.predict_sedimentation_script,
              "-d", distance_grid_filename cfg j.time,
              "-g", age_grid_filename cfg j.time,
              "-i", pyFormatTenthsF1 cfg.grid_spacing_tenths,
              "-w", "-m", j.mean_age, j.mean_distance,
              "-v", j.variance_age, j.variance_distance,
              "-x", j.max_age, j.max_distance,
              "-f"] ++ j.age_distance_polynomial_coefficients)
          ++ ["--", j.output_file_basename_pfx ++ "_" ++ pyFormatIntF 1 j.time] from rfl,
      getLast?_append_pair, pyFormatIntF_one]

theorem distance_grid_filename_ne_scale_flag (cfg : Config) (t : Int) :
    distance_grid_filename cfg t ≠ "-s" := by
  intro hx
  have hlen := congrArg String.length hx
  simp only [distance_grid_filename, String.length_append] at hlen
  have hd : 2 < ("/distances_" : String).length := by decide
  rw [show ("-s" : String).length = 2 from rfl] at hlen
  omega

theorem age_grid_filename_ne_scale_flag (cfg : Config) (t : Int)
    (h : 2 < cfg.age_grid_filenames_format_pre.length) :
    age_grid_filename cfg t ≠ "-s" := by
  intro hx
  have hlen := congrArg String.length hx
  simp only [age_grid_filename, String.length_append] at hlen
  rw [show ("-s" : String).length = 2 from rfl] at hlen
  omega

theorem thickness_out_ne_scale_flag (cfg : Config) (t : Int) :
    thickness_output_file_basename_pfx cfg ++ "_" ++ pyFormatIntF 1 t ≠ "-s" := by
  intro hx
  have hlen := congrArg String.length hx
  simp only [thickness_output_file_basename_pfx, thickness_output_dir, pyPathJoin,
    sediment_output_sub_dir, String.length_append] at hlen
  have hd : 2 < ("sedimentation_output" : String).length := by decide
  rw [show ("-s" : String).length = 2 from rfl] at hlen
  omega

theorem scale_flag_not_in_thickness_command (cfg : Config) (t : Int)
    (h1 : cfg.sys_executable ≠ "-s")
    (h2 : 2 < cfg.age_grid_filenames_format_pre.length)
    (h3 : pyFormatTenthsF1 cfg.grid_spacing_tenths ≠ "-s") :
    "-s" ∉ generate_predicted_sedimentation_grid cfg (thickness_prediction_job cfg t) := by
  intro hmem
  rw [show generate_predicted_sedimentation_grid cfg (thickness_prediction_job cfg t)
      = ([cfg.sys_executable, "predict_sediment_thickness.py",
          "-d", distance_grid_filename cfg t,
          "-g", age_grid_filename cfg t,
          "-i", pyFormatTenthsF1 cfg.grid_spacing_tenths,
          "-w", "-m", "61.18406823", "1835.28118479",
          "-v", "1934.6999014", "1207521.8995806",
          "-x", "191.87276", "3000.0", "-f"]
          ++ ["5.441401190368497", "0.46893096", "-0.07320928", "-0.24077496", "-0.10840657",
              "0.00381672", "0.06831728", "0.01179914", "0.01158149", "-0.39880562"])
        ++ ["--", thickness_output_file_basename_pfx cfg ++ "_" ++ pyFormatIntF 1 t]
      from rfl] at hmem
  rcases List.mem_append.mp hmem with hm | hm
  · rcases List.mem_append.mp hm with hm2 | hm2
    · simp only [List.mem_cons, List.not_mem_nil, or_false] at hm2
      rcases hm2 with h | h | h | h | h | h | h | h | h | h | h | h | h | h | h | h | h | h | h <;>
        first
          | exact h1 h.symm
          | exact h3 h.symm
          | exact distance_grid_filename_ne_scale_flag cfg t h.symm
          | exact age_grid_filename_ne_scale_flag cfg t h2 h.symm
          | exact absurd h (by decide)
    · exact absurd hm2 (by decide)
  · simp only [List.mem_cons, List.not_mem_nil, or_false] at hm
    rcases hm with h | h
    · exact absurd h (by decide)
    · exact thickness_out_ne_scale_flag cfg t h.symm

set_option maxRecDepth 8192 in
/-- Claim C4: the built command contains a scale-factor argument if and
only if the job is a sedimentation-rate job — every rate command contains
the `-s` flag (for any configuration), and no thickness command built from
the source configuration does. -/
theorem scale_argument_iff_rate_mode (pyexe : String) (hpy : pyexe ≠ "-s") :
    (∀ (cfg : Config) (t : Int),
        "-s" ∈ generate_predicted_sedimentation_grid cfg (rate_prediction_job cfg t))
      ∧ (∀ t : Int,
          "-s" ∉ generate_predicted_sedimentation_grid (sourceConfig pyexe)
              (thickness_prediction_job (sourceConfig pyexe) t)) := by
  constructor
  · intro cfg t
    simp [generate_predicted_sedimentation_grid, rate_prediction_job]
  · intro t
    exact scale_flag_not_in_thickness_command (sourceConfig pyexe) t hpy
      (by simp only [sourceConfig]; decide) (by simp only [sourceConfig]; decide)

/-- Claim C4 witness: at time 0 with a concrete interpreter path, the rate
command contains the scale flag and the thickness command does not. -/
theorem scale_argument_iff_rate_mode_witness :
    ("python" : String) ≠ "-s"
      ∧ "-s" ∈ generate_predicted_sedimentation_grid (sourceConfig "python")
          (rate_prediction_job (sourceConfig "python") 0)
      ∧ "-s" ∉ generate_predicted_sedimentation_grid (sourceConfig "python")
          (thickness_prediction_job (sourceConfig "python") 0) :=
  ⟨by decide,
   (scale_argument_iff_rate_mode "python" (by decide)).1 (sourceConfig "python") 0,
   (scale_argument_iff_rate_mode "python" (by decide)).2 0⟩

theorem command_getLast (cfg : Config) (j : PredictionJob) :
    (generate_predicted_sedimentation_grid cfg j).getLast?
      = some (j.output_file_basename_pfx ++ "_" ++ pyFormatIntF 1 j.time) := by
  rw [show generate_predicted_sedimentation_grid cfg j
      = (match j.scale_sedimentation_rate with
         | some s =>
           ([cfg.sys_executable, j.predict_sedimentation_script,
             "-d", distance_grid_filename cfg j.time,
             "-g", age_grid_filename cfg j.time,
             "-i", pyFormatTenthsF1 cfg.grid_spacing_tenths,
             "-w", "-m", j.mean_age, j.mean_distance,
             "-v", j.variance_age, j.variance_distance,
             "-x", j.max_age, j.max_distance,
             "-f"] ++ j.age_distance_polynomial_coefficients) ++ ["-s", s]
         | none =>
           [cfg.sys_executable, j.predict_sedimentation_script,
            "-d", distance_grid_filename cfg j.time,
            "-g", age_grid_filename cfg j.time,
            "-i", pyFormatTenthsF1 cfg.grid_spacing_tenths,
            "-w", "-m", j.mean_age, j.mean_distance,
            "-v", j.variance_age, j.variance_distance,
            "-x", j.max_age, j.max_distance,
            "-f"] ++ j.age_distance_polynomial_coefficients)
        ++ ["--", j.output_file_basename_pfx ++ "_" ++ pyFormatIntF 1 j.time] from rfl,
    getLast?_append_pair]

set_option maxRecDepth 16384 in
/-- Claim C7, counterexample: at time 0 in the scenario (min 0, max 2,
step 1, thickness only) the command's final output-prefix element is
`./sedimentation_output/predicted_thickness/sed_thick_0.1d_0.0`; the
claimed shape `..._thickness_{grid_spacing}d_{time:.1f}` — the text
`thickness_0.1d_0.0` — does not occur in it: the basename says
`sed_thick`, and the `predicted_thickness` directory name is followed by a
path separator, not by `_0.1d`. -/
theorem thickness_scenario_pfx_shape_fails :
    (generate_predicted_sedimentation_grid (scenarioConfig "python")
        (thickness_prediction_job (scenarioConfig "python") 0)).getLast?
        = some "./sedimentation_output/predicted_thickness/sed_thick_0.1d_0.0"
      ∧ ¬ ("thickness_0.1d_0.0".data
            <:+: "./sedimentation_output/predicted_thickness/sed_thick_0.1d_0.0".data) := by
  constructor
  · decide
  · decide

set_option maxRecDepth 16384 in
/-- Claim C7 (amended): with min_time 0, max_time 2, time_step 1 and only
the thickness mode enabled, the driver produces exactly 3 jobs with time
values 0, 1 and 2; each job's command carries the output prefix
`<base>/sedimentation_output/predicted_thickness/sed_thick_{grid_spacing:.1f}d_{time:.1f}`
(the basename segment is `sed_thick`, not `thickness`) and contains no
scale argument. -/
theorem thickness_scenario_jobs (pyexe : String) (hpy : pyexe ≠ "-s") :
    (runJobs (scenarioConfig pyexe)).length = 3
      ∧ (runJobs (scenarioConfig pyexe)).map PredictionJob.time = [0, 1, 2]
      ∧ ∀ j ∈ runJobs (scenarioConfig pyexe),
          (generate_predicted_sedimentation_grid (scenarioConfig pyexe) j).getLast?
              = some ("./sedimentation_output/predicted_thickness/sed_thick_0.1d_"
                  ++ (toString j.time ++ ".0"))
            ∧ "-s" ∉ generate_predicted_sedimentation_grid (scenarioConfig pyexe) j := by
  have hlast : ∀ k : Int,
      (generate_predicted_sedimentation_grid (scenarioConfig pyexe)
          (thickness_prediction_job (scenarioConfig pyexe) k)).getLast?
        = some ("./sedimentation_output/predicted_thickness/sed_thick_0.1d_"
            ++ (toString k ++ ".0")) := by
    intro k
    have hpfx : (thickness_prediction_job (scenarioConfig pyexe) k).output_file_basename_pfx ++ "_"
        = "./sedimentation_output/predicted_thickness/sed_thick_0.1d_" := by
      simp only [thickness_prediction_job, thickness_output_file_basename_pfx,
        thickness_output_dir, pyPathJoin, sediment_output_sub_dir, pyFormatTenthsF1,
        scenarioConfig]
      decide
    rw [command_getLast, pyFormatIntF_one, hpfx]
    rfl
  refine ⟨rfl, rfl, ?_⟩
  intro j hj
  have hlist : runJobs (scenarioConfig pyexe)
      = [thickness_prediction_job (scenarioConfig pyexe) 0,
         thickness_prediction_job (scenarioConfig pyexe) 1,
         thickness_prediction_job (scenarioConfig pyexe) 2] := rfl
  rw [hlist] at hj
  simp only [List.mem_cons, List.not_mem_nil, or_false] at hj
  rcases hj with rfl | rfl | rfl <;>
    exact ⟨hlast _,
      scale_flag_not_in_thickness_command (scenarioConfig pyexe) _ hpy
        (by simp only [scenarioConfig]; decide) (by simp only [scenarioConfig]; decide)⟩

/-- Claim C7 witness: a concrete interpreter path instantiates the amended
scenario theorem. -/
theorem thickness_scenario_jobs_witness :
    ("python" : String) ≠ "-s"
      ∧ (runJobs (scenarioConfig "python")).map PredictionJob.time = [0, 1, 2] :=
  ⟨by decide, (thickness_scenario_jobs "python" (by decide)).2.1⟩
